import Mathlib

/-!
Verification of the routing core (`src/core.rs`, `src/utils.rs`) of the
`routing` crate: a shallow embedding of the data model and of the handlers
the claims below are about, followed by one theorem per claim.

Modelling conventions:
* 512-bit XOR names are natural numbers; XOR distance is `Nat.xor`.
* Cryptography is modelled as perfect: a detached signature records the
  signing key and the signed payload, and verification against a key
  succeeds iff both match.  SHA-512 is an abstract function, supplied via
  a `HashModel` parameter.
* Serialisation is the identity (the codec is an external collaborator).
* TTL-bounded filters and caches are modelled as association lists /
  membership lists; "within the window" is modelled as membership.
* The stateful handlers become pure functions on an explicit `CoreState`,
  returning the `Result` value, the successor state, and any emitted
  effects.  Where a claim's scope ends at a call into a deeper handler,
  the call is represented as an explicit boundary value (`Dispatch`,
  `Effect`) instead of being inlined.
-/

namespace Routing

/-- A 512-bit XOR name, modelled from the spec as a natural number; peer
distance to a target is the XOR magnitude (`Nat.xor`). -/
abbrev XorName := Nat

/-- An ed25519 signing public key (opaque). -/
abbrev SignPublicKey := Nat

/-- A curve25519 encryption public key (opaque). -/
abbrev EncPublicKey := Nat

/-- A crust transport connection handle (opaque). -/
abbrev Connection := Nat

/-- A transport endpoint (opaque). -/
abbrev Endpoint := Nat

/-- A message id (opaque). -/
abbrev MessageId := Nat

/-- An opaque byte buffer. -/
abbrev Bytes := List Nat

/-- Modelled from the spec: `closer_to_target(a, b, target)` from the
`xor_name` module (not under `src/`) holds iff `a` is strictly closer to
`target` than `b` in XOR distance. -/
def closer_to_target (a b target : XorName) : Bool :=
  Nat.xor a target < Nat.xor b target

/-- The errors of `error.rs` (declared outside `src/`; variants are the ones
`core.rs` and `utils.rs` use, plus the user-visible interface subset). -/
inductive InterfaceError where
  | NotConnected
deriving DecidableEq, Repr

inductive RoutingError where
  | RoutingTableEmpty
  | FilterCheckFailed
  | FailedSignature
  | UnknownConnection
  | InvalidStateForOperation
  | ClientConnectionNotFound
  | BadAuthority
  | InvalidDestination
  | RejectedPublicId
  | RefusedFromRoutingTable
  | NotBootstrapped
  | ProxyConnectionNotFound
  | InvalidSource
  | AsymmetricDecryptionFailure
  | SerialisationError
  | Interface (err : InterfaceError)
deriving DecidableEq, Repr

/-- The SHA-512 collaborator (`sodiumoxide`, external to `src/`):
`hName` hashes a name's 64 bytes, `hPk` hashes a signing public key's
bytes, `hCat` hashes the concatenation of the byte arrays of a list of
names (each name is exactly 64 bytes, so the list determines the
concatenated buffer and vice versa). -/
structure HashModel where
  hName : XorName → XorName
  hPk : SignPublicKey → XorName
  hCat : List XorName → XorName

/-- The order in which `calculate_relocated_name` sorts the close nodes:
the reflexive closure of `closer_to_target _ _ target`. -/
def relocation_le (target : XorName) (a b : XorName) : Prop :=
  closer_to_target a b target = true ∨ a = b

instance relocation_le_decidable (target : XorName) :
    DecidableRel (relocation_le target) := fun a b => by
  unfold relocation_le
  exact inferInstance

instance relocation_le_is_trans (target : XorName) :
    IsTrans XorName (relocation_le target) := by
  constructor
  intro a b c hab hbc
  simp only [relocation_le, closer_to_target, decide_eq_true_eq] at *
  rcases hab with hab | hab <;> rcases hbc with hbc | hbc
  · exact Or.inl (lt_trans hab hbc)
  · subst hbc; exact Or.inl hab
  · subst hab; exact Or.inl hbc
  · subst hab; exact Or.inr hbc

instance relocation_le_is_total (target : XorName) :
    IsTotal XorName (relocation_le target) := by
  constructor
  intro a b
  simp only [relocation_le, closer_to_target, decide_eq_true_eq]
  rcases Nat.lt_trichotomy (Nat.xor a target) (Nat.xor b target) with h | h | h
  · exact Or.inl (Or.inl h)
  · exact Or.inl (Or.inr (Nat.xor_left_inj.mp h))
  · exact Or.inr (Or.inl h)

/-- `utils::calculate_relocated_name`: sort the close nodes by XOR
closeness to `original_name`, keep the first two, prepend the original
name and hash the concatenation.  Rust's `sort_by` runs a stable sort with
a comparator returning `Less` iff `closer_to_target a b original_name`;
since XOR distance to a fixed target is injective, ties arise only between
equal names, so every stable sort — the insertion sort used here included
— yields the same list the source computes. -/
def calculate_relocated_name (H : HashModel) (close_nodes : List XorName)
    (original_name : XorName) : Except RoutingError XorName :=
  if close_nodes.isEmpty then
    .error .RoutingTableEmpty
  else
    let sorted := close_nodes.insertionSort (relocation_le original_name)
    let truncated := sorted.take 2
    let combined := original_name :: truncated
    .ok (H.hCat combined)

/-- `PublicId` (`id.rs`, declared outside `src/`): the public keys plus
the 512-bit XOR name.  Initially `name = H(signing_pub)`; relocation
replaces the name. -/
structure PublicId where
  sign_key : SignPublicKey
  enc_key : EncPublicKey
  name : XorName
deriving DecidableEq, Repr

/-- `PublicId::set_name`. -/
def PublicId.set_name (pid : PublicId) (n : XorName) : PublicId :=
  { pid with name := n }

/-- `FullId`: in this perfect-crypto model only the public portion is
carried; signing with the private key is recorded as the public key. -/
structure FullId where
  public_id : PublicId
deriving DecidableEq, Repr

/-- `Authority` (`authority.rs`, declared outside `src/`; shape from the
spec and from the patterns `core.rs` matches on). -/
inductive Authority where
  | Client (client_key : SignPublicKey) (proxy_node_name : XorName)
  | ManagedNode (name : XorName)
  | NodeManager (name : XorName)
  | NaeManager (name : XorName)
deriving DecidableEq, Repr

/-- A group authority is a `NodeManager` or `NaeManager`. -/
def Authority.is_group : Authority → Bool
  | .NodeManager _ => true
  | .NaeManager _ => true
  | _ => false

/-- `RequestContent` (`messages.rs`, declared outside `src/`; the variants
`core.rs` dispatches on, with payloads opaque where the core ignores
them). -/
inductive RequestContent where
  | GetNetworkName (current_id : PublicId)
  | ExpectCloseNode (expect_id : PublicId)
  | GetCloseGroup
  | Endpoints (encrypted_endpoints : Bytes) (nonce_bytes : Bytes)
  | Connect
  | GetPublicId
  | GetPublicIdWithEndpoints (encrypted_endpoints : Bytes) (nonce_bytes : Bytes)
  | Get (data_request : Nat) (id : MessageId)
  | Put (data : Nat) (id : MessageId)
  | Post (data : Nat) (id : MessageId)
  | Delete (data : Nat) (id : MessageId)
  | Refresh (payload : Bytes)
deriving DecidableEq, Repr

/-- `ResponseContent` (`messages.rs`, declared outside `src/`). -/
inductive ResponseContent where
  | GetNetworkName (relocated_id : PublicId)
  | GetPublicId (public_id : PublicId)
  | GetPublicIdWithEndpoints (public_id : PublicId) (encrypted_endpoints : Bytes)
      (nonce_bytes : Bytes)
  | GetCloseGroup (close_group_ids : List PublicId)
  | GetSuccess (data : Nat) (id : MessageId)
  | PutSuccess (name : XorName) (id : MessageId)
  | PostSuccess (name : XorName) (id : MessageId)
  | DeleteSuccess (name : XorName) (id : MessageId)
  | GetFailure (payload : Bytes)
  | PutFailure (payload : Bytes)
  | PostFailure (payload : Bytes)
  | DeleteFailure (payload : Bytes)
deriving DecidableEq, Repr

structure RequestMessage where
  src : Authority
  dst : Authority
  content : RequestContent
deriving DecidableEq, Repr

structure ResponseMessage where
  src : Authority
  dst : Authority
  content : ResponseContent
deriving DecidableEq, Repr

inductive RoutingMessage where
  | Request (msg : RequestMessage)
  | Response (msg : ResponseMessage)
deriving DecidableEq, Repr

def RoutingMessage.src : RoutingMessage → Authority
  | .Request m => m.src
  | .Response m => m.src

def RoutingMessage.dst : RoutingMessage → Authority
  | .Request m => m.dst
  | .Response m => m.dst

/-- A detached signature over a routing message: in the perfect-crypto
model it records the signer's public key and the signed payload. -/
structure MsgSignature where
  signer : SignPublicKey
  signed : RoutingMessage
deriving DecidableEq, Repr

/-- `SignedMessage`: routing message, the claimed signer's public id and
the signature over the content. -/
structure SignedMessage where
  content : RoutingMessage
  public_id : PublicId
  signature : MsgSignature
deriving DecidableEq, Repr

/-- `SignedMessage::new`: sign `content` with our full id. -/
def SignedMessage.new (content : RoutingMessage) (full_id : FullId) : SignedMessage :=
  { content := content
    public_id := full_id.public_id
    signature := { signer := full_id.public_id.sign_key, signed := content } }

/-- `SignedMessage::check_integrity`: the signature must verify against
the carried public id over the carried content. -/
def SignedMessage.check_integrity (m : SignedMessage) : Except RoutingError Unit :=
  if m.signature.signer = m.public_id.sign_key ∧ m.signature.signed = m.content then
    .ok ()
  else
    .error .FailedSignature

/-- A detached signature over a signed message (the hop wrapper). -/
structure HopSignature where
  signer : SignPublicKey
  signed : SignedMessage
deriving DecidableEq, Repr

/-- `HopMessage`: the forwarding wrapper, signed by the hop over the
content. -/
structure HopMessage where
  content : SignedMessage
  name : XorName
  signature : HopSignature
deriving DecidableEq, Repr

/-- `HopMessage::verify(key)`: the outer signature must verify against
`key` over the content. -/
def HopMessage.verify (hop : HopMessage) (key : SignPublicKey) :
    Except RoutingError Unit :=
  if hop.signature.signer = key ∧ hop.signature.signed = hop.content then
    .ok ()
  else
    .error .FailedSignature

/-- A detached signature over a serialised `PublicId` (used by the
identify handshakes). -/
structure IdSignature where
  signer : SignPublicKey
  signed : PublicId
deriving DecidableEq, Repr

/-- `Core::verify_signed_public_id` (serialisation is the identity in this
model, so the deserialised id is the id itself). -/
def verify_signed_public_id (public_id : PublicId) (signature : IdSignature) :
    Except RoutingError PublicId :=
  if signature.signer = public_id.sign_key ∧ signature.signed = public_id then
    .ok public_id
  else
    .error .FailedSignature

/-- The lifecycle state of `core.rs`. -/
inductive State where
  | Disconnected
  | Bootstrapping
  | Client
  | Node
deriving DecidableEq, Repr

/-- `kademlia_routing_table::group_size()`.  Modelled from the spec: the
`GROUP_SIZE` parameter of the Kademlia table, typically 8. -/
def group_size : Nat := 8

/-- `core.rs`: the maximum number of simultaneously joining nodes proxied
through us. -/
def MAX_JOINING_NODES : Nat := 1

/-- The Kademlia routing table (external crate), modelled from the spec as
the anchor name plus name-keyed entries; the claims only exercise
`new`, `get` and `len`. -/
structure RoutingTableM where
  our_name : XorName
  nodes : List (XorName × PublicId)
deriving DecidableEq, Repr

/-- `RoutingTable::new(name)`: a fresh empty table anchored at `name`. -/
def RoutingTableM.fresh (name : XorName) : RoutingTableM :=
  { our_name := name, nodes := [] }

/-- `RoutingTable::get(name)`. -/
def RoutingTableM.get (rt : RoutingTableM) (name : XorName) : Option PublicId :=
  rt.nodes.lookup name

/-- `RoutingTable::len()`. -/
def RoutingTableM.len (rt : RoutingTableM) : Nat :=
  rt.nodes.length

/-- Modelled from the spec: the accumulator threshold is a function of the
current routing-table membership (the exact formula lives in the external
`kademlia_routing_table` crate; no claim depends on it). -/
def RoutingTableM.dynamic_quorum_size (rt : RoutingTableM) : Nat :=
  min rt.len group_size

/-- The per-signer quorum accumulator (external `accumulator` crate):
keyed by routing message, collecting distinct signer keys, emitting once
the quorum size is reached. -/
structure AccumulatorM where
  quorum_size : Nat
  entries : List (RoutingMessage × List SignPublicKey)
deriving DecidableEq, Repr

/-- `Accumulator::add`: record `key` under `msg` and return the collected
keys when they reach the quorum. -/
def AccumulatorM.add (acc : AccumulatorM) (msg : RoutingMessage)
    (key : SignPublicKey) : Option (List SignPublicKey) × AccumulatorM :=
  let prev := (acc.entries.lookup msg).getD []
  let keys := if key ∈ prev then prev else key :: prev
  let entries := (msg, keys) :: acc.entries.filter (fun e => e.1 != msg)
  (if acc.quorum_size ≤ keys.length then some keys else none,
   { acc with entries := entries })

/-- `Accumulator::set_quorum_size`. -/
def AccumulatorM.set_quorum_size (acc : AccumulatorM) (n : Nat) : AccumulatorM :=
  { acc with quorum_size := n }

/-- Insertion into a map-like association list (LruCache / HashMap insert
with the previous entry for the key evicted). -/
def map_insert {β : Type} (k : Nat) (v : β) (m : List (Nat × β)) : List (Nat × β) :=
  (k, v) :: m.filter (fun e => e.1 != k)

/-- The mutable state of `Core` (the fields the claims touch; the crust
service, event channels and acceptors book-keeping stay external). -/
structure CoreState where
  client_restriction : Bool
  signed_message_filter : List SignedMessage
  connection_filter : List XorName
  node_id_cache : List (XorName × PublicId)
  message_accumulator : AccumulatorM
  grp_msg_filter : List RoutingMessage
  full_id : FullId
  state : State
  routing_table : RoutingTableM
  proxy_map : List (Connection × PublicId)
  client_map : List (SignPublicKey × Connection × Bool)
  data_cache : List (XorName × Nat)
  acceptors : List Endpoint
deriving DecidableEq, Repr

/-- `Core::joining_nodes_num`: clients we proxy for that intend to become
nodes (`client_restriction == false`). -/
def joining_nodes_num (s : CoreState) : Nat :=
  (s.client_map.filter (fun e => !e.2.2)).length

/-- The boundary between `handle_signed_message` and the deeper handlers:
a `Dispatch` records a call to `handle_signed_message_for_node` or
`handle_signed_message_for_client` with its arguments.  Calls are listed
in invocation order; downstream, a failing call aborts the later ones. -/
inductive Dispatch where
  | forNode (m : SignedMessage) (hop_name : XorName)
  | forClient (m : SignedMessage)
deriving DecidableEq, Repr

/-- `core.rs` `handle_hop_message` (state and key checks; the terminal
call `handle_signed_message(content, name)` is represented by returning
its arguments).  In `Node` state the hop is verified against the routing
table entry for the hop name, else against the `client_map` entry for the
receiving connection, else rejected with `UnknownConnection`.  In `Client`
state the hop is verified against the proxy registered for the connection
in `proxy_map` — and passed on unverified when the connection has no
`proxy_map` entry, mirroring the `if let` without an `else` in the
source.  Other states are rejected. -/
def handle_hop_message (s : CoreState) (hop_msg : HopMessage)
    (connection : Connection) : Except RoutingError (SignedMessage × XorName) :=
  if s.state = State.Node then
    match s.routing_table.get hop_msg.name with
    | some public_id =>
      match hop_msg.verify public_id.sign_key with
      | .ok _ => .ok (hop_msg.content, hop_msg.name)
      | .error e => .error e
    | none =>
      match s.client_map.find? (fun elt => connection == elt.2.1) with
      | some elt =>
        match hop_msg.verify elt.1 with
        | .ok _ => .ok (hop_msg.content, hop_msg.name)
        | .error e => .error e
      | none => .error .UnknownConnection
  else if s.state = State.Client then
    match s.proxy_map.lookup connection with
    | some pub_id =>
      match hop_msg.verify pub_id.sign_key with
      | .ok _ => .ok (hop_msg.content, hop_msg.name)
      | .error e => .error e
    | none => .ok (hop_msg.content, hop_msg.name)
  else
    .error .InvalidStateForOperation

/-- `core.rs` lines 391-402: a `GetNetworkName` request from a client in
our `client_map` with `client_restriction` set is refused. -/
def illegitimate_get_network_name (s : CoreState) (m : SignedMessage) : Bool :=
  match m.content with
  | .Request { src := Authority.Client client_key _, content := RequestContent.GetNetworkName _, .. } =>
    match s.client_map.lookup client_key with
    | some (_, true) => true
    | _ => false
  | _ => false

/-- `core.rs` lines 405-417: while a node, endpoint requests and
`GetCloseGroup` responses addressed to ourselves as a client are also
handled through the client path. -/
def client_pre_dispatches (s : CoreState) (m : SignedMessage) : List Dispatch :=
  match m.content.dst with
  | Authority.Client client_key _ =>
    if client_key = s.full_id.public_id.sign_key then
      (match m.content with
       | .Request { content := RequestContent.Endpoints _ _, .. } => [Dispatch.forClient m]
       | _ => []) ++
      (match m.content with
       | .Response { content := ResponseContent.GetCloseGroup _, .. } => [Dispatch.forClient m]
       | _ => [])
    else []
  | _ => []

/-- `core.rs` `handle_signed_message`: integrity check, replay filter,
then state dispatch.  The calls into the deeper handlers are returned as
`Dispatch` values (see `Dispatch`). -/
def handle_signed_message (s : CoreState) (signed_msg : SignedMessage)
    (hop_name : XorName) : Except RoutingError (List Dispatch) × CoreState :=
  match signed_msg.check_integrity with
  | .error e => (.error e, s)
  | .ok _ =>
    if signed_msg ∈ s.signed_message_filter then
      (.error .FilterCheckFailed, s)
    else
      let s1 := { s with signed_message_filter := signed_msg :: s.signed_message_filter }
      if s1.state = State.Node then
        if illegitimate_get_network_name s1 signed_msg then
          (.error .ClientConnectionNotFound, s1)
        else
          (.ok (client_pre_dispatches s1 signed_msg ++ [Dispatch.forNode signed_msg hop_name]), s1)
      else if s1.state = State.Client then
        (.ok [Dispatch.forClient signed_msg], s1)
      else
        (.error .InvalidStateForOperation, s1)

/-- The first step of `core.rs` `accumulate`: while a node, refresh the
quorum size from the routing table. -/
def accumulate_quorum_state (s : CoreState) : CoreState :=
  if s.state = State.Node then
    { s with message_accumulator :=
        s.message_accumulator.set_quorum_size s.routing_table.dynamic_quorum_size }
  else s

/-- `core.rs` `accumulate`: refresh the quorum size, then add the message
under the signer's key; emitting returns the message itself. -/
def accumulate (s : CoreState) (message : RoutingMessage) (public_id : PublicId) :
    Option RoutingMessage × CoreState :=
  let s1 := accumulate_quorum_state s
  match s1.message_accumulator.add message public_id.sign_key with
  | (some _, acc) => (some message, { s1 with message_accumulator := acc })
  | (none, acc) => (none, { s1 with message_accumulator := acc })

/-- `accumulate` either emits exactly the message it was given or absorbs
it. -/
theorem accumulate_cases (s : CoreState) (m : RoutingMessage) (pid : PublicId) :
    (∃ s1, accumulate s m pid = (some m, s1)) ∨
    (∃ s1, accumulate s m pid = (none, s1)) := by
  unfold accumulate
  rcases h : (accumulate_quorum_state s).message_accumulator.add m pid.sign_key with ⟨o, acc⟩
  cases o <;> simp [h]

/-- `core.rs` `handle_routing_message`: group-sourced messages pass the
group filter, then the quorum accumulator — except `GetCloseGroup`
responses, which skip accumulation.  Reaching
`dispatch_request_response(routing_msg)` is represented by returning
`some routing_msg`; `none` means the message was absorbed while the
quorum is pending. -/
def handle_routing_message (s : CoreState) (routing_msg : RoutingMessage)
    (public_id : PublicId) :
    Except RoutingError (Option RoutingMessage) × CoreState :=
  if routing_msg.src.is_group then
    if routing_msg ∈ s.grp_msg_filter then
      (.error .FilterCheckFailed, s)
    else
      match routing_msg with
      | .Response { content := ResponseContent.GetCloseGroup _, .. } =>
        (.ok (some routing_msg), s)
      | _ =>
        match accumulate s routing_msg public_id with
        | (some output_msg, s1) =>
          (.ok (some routing_msg),
           { s1 with grp_msg_filter := output_msg :: s1.grp_msg_filter })
        | (none, s1) => (.ok none, s1)
  else
    (.ok (some routing_msg), s)

/-- Direct messages the `ClientIdentify` handler can emit. -/
inductive OutDirectMessage where
  | BootstrapIdentify (public_id : PublicId) (current_quorum_size : Nat)
  | BootstrapDeny
deriving DecidableEq, Repr

/-- Transport effects emitted by a handler, in order. -/
inductive Effect where
  | send (connection : Connection) (msg : OutDirectMessage)
  | dropNode (connection : Connection)
deriving DecidableEq, Repr

/-- The accept tail of the `ClientIdentify` arm: insert into `client_map`
(dropping a previous connection registered under the same key) and answer
with `BootstrapIdentify`. -/
def client_identify_accept (s : CoreState) (connection : Connection)
    (public_id : PublicId) (client_restriction : Bool) :
    Except RoutingError Unit × CoreState × List Effect :=
  let prev := s.client_map.lookup public_id.sign_key
  let new_map := map_insert public_id.sign_key (connection, client_restriction) s.client_map
  let s1 := { s with client_map := new_map }
  let drop_prev :=
    match prev with
    | some (prev_conn, _) => [Effect.dropNode prev_conn]
    | none => []
  (.ok (), s1,
   drop_prev ++
     [Effect.send connection
        (OutDirectMessage.BootstrapIdentify s1.full_id.public_id
          s1.routing_table.dynamic_quorum_size)])

/-- `core.rs` `handle_direct_message`, `ClientIdentify` arm: verify the
signed public id (dropping the connection on failure), require the id to
be unrelocated (`name = H(signing_pub)`), apply admission control, then
accept. -/
def handle_client_identify (H : HashModel) (s : CoreState)
    (connection : Connection) (public_id : PublicId) (signature : IdSignature)
    (client_restriction : Bool) :
    Except RoutingError Unit × CoreState × List Effect :=
  match verify_signed_public_id public_id signature with
  | .error _ => (.ok (), s, [Effect.dropNode connection])
  | .ok public_id =>
    if public_id.name ≠ H.hPk public_id.sign_key then
      (.ok (), s, [Effect.dropNode connection])
    else if client_restriction then
      if s.routing_table.len < group_size then
        (.ok (), s, [Effect.send connection OutDirectMessage.BootstrapDeny])
      else
        client_identify_accept s connection public_id client_restriction
    else
      if ¬(s.routing_table.len < group_size ∧ joining_nodes_num s < group_size) ∧
          MAX_JOINING_NODES ≤ joining_nodes_num s then
        (.ok (), s, [Effect.send connection OutDirectMessage.BootstrapDeny])
      else
        client_identify_accept s connection public_id client_restriction

/-- `core.rs` `handle_expect_close_node_request`: cache the expected id
under its name; a previous entry for the same name makes the handler
return `RejectedPublicId` — after the insertion already happened. -/
def handle_expect_close_node_request (s : CoreState) (expect_id : PublicId) :
    Except RoutingError Unit × CoreState :=
  let prev := s.node_id_cache.lookup expect_id.name
  let s1 := { s with node_id_cache := map_insert expect_id.name expect_id s.node_id_cache }
  match prev with
  | some _ => (.error .RejectedPublicId, s1)
  | none => (.ok (), s1)

/-- `core.rs` `set_self_node_name`: assert `H(signing_pub) ≠ new_name`
(`none` models the panic of a failed assertion), then replace the routing
table with a fresh one anchored at the new name and rename the public
id. -/
def set_self_node_name (H : HashModel) (s : CoreState) (new_name : XorName) :
    Option CoreState :=
  if H.hPk s.full_id.public_id.sign_key = new_name then
    none
  else
    some { s with
      routing_table := RoutingTableM.fresh new_name
      full_id := { public_id := s.full_id.public_id.set_name new_name } }

/-- `core.rs` `handle_on_accept`: a disconnected participant that receives
an incoming connection promotes itself to the first node, self-relocating
to the hash of its current name; the accepting endpoint is recorded
either way. -/
def handle_on_accept (H : HashModel) (s : CoreState) (endpoint : Endpoint)
    (_connection : Connection) : Option CoreState :=
  if s.state = State.Disconnected then
    let new_name := H.hName s.full_id.public_id.name
    match set_self_node_name H s new_name with
    | none => none
    | some s1 =>
      some { s1 with state := State.Node, acceptors := endpoint :: s1.acceptors }
  else
    some { s with acceptors := endpoint :: s.acceptors }

/-- `core.rs` `get_client_authority`: the first proxy-map entry names the
proxy; with no proxy the core is not bootstrapped. -/
def get_client_authority (s : CoreState) : Except RoutingError Authority :=
  match s.proxy_map.head? with
  | some (_, bootstrap_pub_id) =>
    .ok (Authority.Client s.full_id.public_id.sign_key bootstrap_pub_id.name)
  | none => .error .NotBootstrapped

/-- The `NodeSendMessage` arm of `Core::run`: translate the internal
outcome of `send_message` into the user-visible result — only
`Interface` errors surface, every other failure is reported as `Ok`. -/
def node_send_message_action (send_outcome : Except RoutingError Unit) :
    Except InterfaceError Unit :=
  match send_outcome with
  | .error (RoutingError.Interface err) => .error err
  | .error _ => .ok ()
  | .ok _ => .ok ()

/-- The `ClientSendRequest` arm of `Core::run`: build the client-sourced
request and translate the outcome of `send_message` (supplied as a
function, since the send path is beyond this claim's boundary); with no
proxy the user receives `NotConnected`. -/
def client_send_request_action (s : CoreState)
    (send_outcome : RequestMessage → Except RoutingError Unit)
    (content : RequestContent) (dst : Authority) : Except InterfaceError Unit :=
  match get_client_authority s with
  | .ok src =>
    let request_msg : RequestMessage := { src := src, dst := dst, content := content }
    match send_outcome request_msg with
    | .error (RoutingError.Interface err) => .error err
    | .error _ => .ok ()
    | .ok _ => .ok ()
  | .error _ => .error InterfaceError.NotConnected

/-- A step in the sort order gives non-strict XOR-distance ordering. -/
theorem relocation_le_dist (target a b : XorName) (h : relocation_le target a b) :
    Nat.xor a target ≤ Nat.xor b target := by
  rcases h with h | h
  · exact le_of_lt (by simpa [closer_to_target] using h)
  · subst h; exact le_refl _

/-- C1: `calculate_relocated_name` satisfies its full postcondition: an
empty `close_nodes` list yields `RoutingTableEmpty`; a single close node
`k` yields `H(original_name ‖ k)`; with two or more close nodes the result
is `H(original_name ‖ k1 ‖ k2)` where `k1, k2` are the two close nodes
nearest to `original_name`, ordered ascending by XOR distance; the
function is deterministic; and (for any hash whose output never equals the
leading input name, as a collision-free SHA-512 is assumed to be) the
output differs from `original_name` whenever `close_nodes` is non-empty. -/
theorem c1_calculate_relocated_name_postcondition (H : HashModel)
    (close_nodes : List XorName) (original_name : XorName)
    (hH : ∀ x l, H.hCat (x :: l) ≠ x) :
    (close_nodes = [] →
      calculate_relocated_name H close_nodes original_name = .error .RoutingTableEmpty)
  ∧ (∀ k, close_nodes = [k] →
      calculate_relocated_name H close_nodes original_name = .ok (H.hCat [original_name, k]))
  ∧ (2 ≤ close_nodes.length →
      ∃ k1 k2 rest,
        close_nodes.insertionSort (relocation_le original_name) = k1 :: k2 :: rest ∧
        calculate_relocated_name H close_nodes original_name =
          .ok (H.hCat [original_name, k1, k2]) ∧
        (k1 :: k2 :: rest).Perm close_nodes ∧
        Nat.xor k1 original_name ≤ Nat.xor k2 original_name ∧
        (∀ x ∈ rest, Nat.xor k1 original_name ≤ Nat.xor x original_name ∧
          Nat.xor k2 original_name ≤ Nat.xor x original_name))
  ∧ (calculate_relocated_name H close_nodes original_name =
      calculate_relocated_name H close_nodes original_name)
  ∧ (close_nodes ≠ [] → ∀ r,
      calculate_relocated_name H close_nodes original_name = .ok r → r ≠ original_name) := by
  refine ⟨?_, ?_, ?_, rfl, ?_⟩
  · intro h; subst h; rfl
  · intro k h; subst h; rfl
  · intro hlen2
    have hperm := List.perm_insertionSort (relocation_le original_name) close_nodes
    have hsorted := List.sorted_insertionSort (relocation_le original_name) close_nodes
    have hlen : 2 ≤ (close_nodes.insertionSort (relocation_le original_name)).length := by
      rw [hperm.length_eq]; exact hlen2
    rcases hs : close_nodes.insertionSort (relocation_le original_name) with
        _ | ⟨k1, _ | ⟨k2, rest⟩⟩
    · rw [hs] at hlen; simp at hlen
    · rw [hs] at hlen; simp at hlen
    · rw [hs] at hperm hsorted
      have hne : close_nodes.isEmpty = false := by
        cases close_nodes with
        | nil => simp at hlen2
        | cons a l => rfl
      refine ⟨k1, k2, rest, rfl, ?_, hperm, ?_, ?_⟩
      · simp [calculate_relocated_name, hne, hs]
      · rcases List.sorted_cons.mp hsorted with ⟨h1, _⟩
        exact relocation_le_dist _ _ _ (h1 k2 (by simp))
      · intro x hx
        rcases List.sorted_cons.mp hsorted with ⟨h1, h2⟩
        rcases List.sorted_cons.mp h2 with ⟨h3, _⟩
        exact ⟨relocation_le_dist _ _ _ (h1 x (by simp [hx])),
               relocation_le_dist _ _ _ (h3 x hx)⟩
  · intro hne r hr
    have hne2 : close_nodes.isEmpty = false := by
      cases close_nodes with
      | nil => exact absurd rfl hne
      | cons a l => rfl
    simp only [calculate_relocated_name, hne2, Bool.false_eq_true, if_false,
      Except.ok.injEq] at hr
    intro hcontra
    subst hcontra
    exact hH _ _ hr

/-- Concrete hash model for witnesses: every hash output is the leading
input (or the raw input) plus one, so a hash never equals its leading
input. -/
def witnessHash : HashModel :=
  { hName := fun n => n + 1, hPk := fun k => k + 1, hCat := fun l => l.headD 0 + 1 }

/-- Witness for C1 at a concrete input: close nodes `[3, 1]`, original
name `0`. -/
theorem c1_witness :
    calculate_relocated_name witnessHash [3, 1] 0 = .ok 1 ∧ (1 : XorName) ≠ 0 := by
  have h := c1_calculate_relocated_name_postcondition witnessHash [3, 1] 0
    (by intro x l; simp [witnessHash])
  have heval : calculate_relocated_name witnessHash [3, 1] 0 = .ok 1 := rfl
  exact ⟨heval, h.2.2.2.2 (by simp) 1 heval⟩

/-- The verification property claim C2 asserts of every hop message that
reaches signed-message handling: verified against a routing-table entry
for the hop name or a `client_map` entry for the connection (as a node),
or against the current proxy (as a client). -/
def hop_verified_per_claim (s : CoreState) (hop_msg : HopMessage)
    (connection : Connection) : Prop :=
  (s.state = State.Node ∧
    ((∃ pid, s.routing_table.get hop_msg.name = some pid ∧
        hop_msg.verify pid.sign_key = .ok ()) ∨
     (∃ e ∈ s.client_map, e.2.1 = connection ∧ hop_msg.verify e.1 = .ok ())))
  ∨ (s.state = State.Client ∧
      ∃ e ∈ s.proxy_map, hop_msg.verify e.2.sign_key = .ok ())

/-- A minimal concrete core state for concrete evaluations. -/
def baseState : CoreState :=
  { client_restriction := false
    signed_message_filter := []
    connection_filter := []
    node_id_cache := []
    message_accumulator := { quorum_size := 1, entries := [] }
    grp_msg_filter := []
    full_id := { public_id := { sign_key := 10, enc_key := 11, name := 12 } }
    state := State.Node
    routing_table := RoutingTableM.fresh 12
    proxy_map := []
    client_map := []
    data_cache := []
    acceptors := [] }

/-- A minimal concrete routing message. -/
def baseMsg : RoutingMessage :=
  RoutingMessage.Request
    { src := Authority.ManagedNode 1, dst := Authority.ManagedNode 2,
      content := RequestContent.Connect }

/-- A minimal concrete signed message, integrity-valid (signed by the key
of its own public id). -/
def baseSigned : SignedMessage :=
  { content := baseMsg
    public_id := { sign_key := 5, enc_key := 6, name := 7 }
    signature := { signer := 5, signed := baseMsg } }

/-- A concrete hop wrapper around `baseSigned`, hop-signed by key 5. -/
def baseHop : HopMessage :=
  { content := baseSigned, name := 7,
    signature := { signer := 5, signed := baseSigned } }

/-- Counterexample to C2 as stated: a core in `Client` state with an empty
`proxy_map` passes a hop message straight to signed-message handling
although no known key verified it — the `if let` on the proxy lookup in
`handle_hop_message` has no `else`. -/
theorem c2_counterexample :
    handle_hop_message { baseState with state := State.Client } baseHop 0 =
      .ok (baseHop.content, baseHop.name)
    ∧ ¬ hop_verified_per_claim { baseState with state := State.Client } baseHop 0 := by
  constructor
  · rfl
  · simp [hop_verified_per_claim, baseState]

/-- C2 (amended): a hop message reaches signed-message handling iff —
when state = Node — the outer signature verifies against the routing-table
entry for the hop name, or there is no such entry and it verifies against
the first `client_map` entry for the receiving connection; when state =
Client, it reaches handling if the connection's proxy verifies it, but
also, unverified, whenever the connection has no `proxy_map` entry.  Any
other state is rejected, and what is passed on is always the carried
signed message and hop name. -/
theorem c2_amended_hop_verification (s : CoreState) (hop_msg : HopMessage)
    (connection : Connection) :
    (∀ out, handle_hop_message s hop_msg connection = .ok out →
      out = (hop_msg.content, hop_msg.name))
  ∧ (handle_hop_message s hop_msg connection = .ok (hop_msg.content, hop_msg.name) ↔
      ((s.state = State.Node ∧
         ((∃ pid, s.routing_table.get hop_msg.name = some pid ∧
             hop_msg.verify pid.sign_key = .ok ()) ∨
          (s.routing_table.get hop_msg.name = none ∧
           ∃ e, s.client_map.find? (fun elt => connection == elt.2.1) = some e ∧
             hop_msg.verify e.1 = .ok ())))
       ∨ (s.state = State.Client ∧
           (s.proxy_map.lookup connection = none ∨
            ∃ pid, s.proxy_map.lookup connection = some pid ∧
              hop_msg.verify pid.sign_key = .ok ())))) := by
  unfold handle_hop_message
  cases hst : s.state with
  | Disconnected => simp
  | Bootstrapping => simp
  | Node =>
    simp only [reduceCtorEq, reduceIte, false_and, and_false, false_or, or_false,
      true_and, and_true]
    cases hrt : s.routing_table.get hop_msg.name with
    | some pid =>
      cases hv : hop_msg.verify pid.sign_key with
      | ok u => cases u; simp [hrt, hv]
      | error e =>
        simp only [hrt]
        constructor
        · intro out h; rw [hv] at h; cases h
        · rw [hv]
          simp only [Option.some.injEq]
          constructor
          · intro h; cases h
          · rintro (⟨pid2, hpid2, hver⟩ | ⟨hnone, _⟩)
            · subst hpid2; rw [hv] at hver; cases hver
            · cases hnone
    | none =>
      cases hfind : s.client_map.find? (fun elt => connection == elt.2.1) with
      | some elt =>
        cases hv : hop_msg.verify elt.1 with
        | ok u => cases u; simp [hrt, hfind, hv]
        | error e => simp [hrt, hfind, hv]
      | none => simp [hrt, hfind]
  | Client =>
    simp only [reduceCtorEq, reduceIte, false_and, and_false, false_or, or_false,
      true_and, and_true]
    cases hlk : s.proxy_map.lookup connection with
    | some pid =>
      cases hv : hop_msg.verify pid.sign_key with
      | ok u => cases u; simp [hlk, hv]
      | error e => simp [hlk, hv]
    | none => simp [hlk]

/-- Witness for the amended C2 at a concrete input: a node whose routing
table knows the hop name accepts the verified hop message. -/
theorem c2_amended_witness :
    handle_hop_message
      { baseState with
        routing_table := { our_name := 12, nodes := [(7, { sign_key := 5, enc_key := 6, name := 7 })] } }
      baseHop 0 = .ok (baseHop.content, baseHop.name) :=
  (c2_amended_hop_verification _ baseHop 0).2.mpr
    (Or.inl ⟨rfl, Or.inl ⟨{ sign_key := 5, enc_key := 6, name := 7 }, rfl, rfl⟩⟩)

/-- C3: a signed message that is already in the replay filter — the second
receipt within the filter window — is rejected immediately after the
filter check with `FilterCheckFailed`, with no state change and no
dispatch; and a first receipt (integrity-valid, not yet in the filter)
leaves the message in the filter, which is what makes the second receipt
fall in the window. -/
theorem c3_duplicate_signed_message_rejected (s : CoreState)
    (signed_msg : SignedMessage) (hop_name : XorName)
    (hint : signed_msg.check_integrity = .ok ()) :
    (signed_msg ∈ s.signed_message_filter →
      handle_signed_message s signed_msg hop_name = (.error .FilterCheckFailed, s))
  ∧ (signed_msg ∉ s.signed_message_filter →
      signed_msg ∈ (handle_signed_message s signed_msg hop_name).2.signed_message_filter) := by
  constructor
  · intro hmem
    simp [handle_signed_message, hint, hmem]
  · intro hnot
    cases hst : s.state
    all_goals simp [handle_signed_message, hint, hnot, hst]
    all_goals try (split <;> simp)

/-- Witness for C3 at a concrete input: the second receipt of
`baseSigned` is dropped with `FilterCheckFailed` and the state is exactly
the pre-state. -/
theorem c3_witness :
    handle_signed_message { baseState with signed_message_filter := [baseSigned] }
        baseSigned 7 =
      (.error .FilterCheckFailed, { baseState with signed_message_filter := [baseSigned] }) :=
  (c3_duplicate_signed_message_rejected _ baseSigned 7 rfl).1 (by simp)

/-- C4: on a `ClientIdentify` with verified signature and unrelocated
public id, admission is decided exactly as the source spells it: with
`client_restriction` the request is denied with `BootstrapDeny` iff the
routing table is below `group_size`; without it, iff the joining-node cap
is hit; and on denial the only effect is sending `BootstrapDeny` — in
particular the denied connection is not dropped and the state is
unchanged. -/
theorem c4_client_identify_admission (H : HashModel) (s : CoreState)
    (connection : Connection) (public_id : PublicId) (signature : IdSignature)
    (client_restriction : Bool)
    (hsig : verify_signed_public_id public_id signature = .ok public_id)
    (hname : public_id.name = H.hPk public_id.sign_key) :
    ((Effect.send connection OutDirectMessage.BootstrapDeny ∈
        (handle_client_identify H s connection public_id signature client_restriction).2.2) ↔
      (if client_restriction then s.routing_table.len < group_size
       else ¬(s.routing_table.len < group_size ∧ joining_nodes_num s < group_size) ∧
         MAX_JOINING_NODES ≤ joining_nodes_num s))
  ∧ ((if client_restriction then s.routing_table.len < group_size
      else ¬(s.routing_table.len < group_size ∧ joining_nodes_num s < group_size) ∧
        MAX_JOINING_NODES ≤ joining_nodes_num s) →
      handle_client_identify H s connection public_id signature client_restriction =
        (.ok (), s, [Effect.send connection OutDirectMessage.BootstrapDeny])
      ∧ Effect.dropNode connection ∉
          (handle_client_identify H s connection public_id signature client_restriction).2.2) := by
  unfold handle_client_identify
  rw [hsig]
  simp only [hname, ne_eq, not_true_eq_false, if_false, Bool.false_eq_true, reduceIte]
  cases client_restriction with
  | true =>
    by_cases hlt : s.routing_table.len < group_size
    · simp [hlt]
    · simp only [hlt, if_false, Bool.false_eq_true, if_true, reduceIte, iff_false]
      unfold client_identify_accept
      cases hprev : s.client_map.lookup public_id.sign_key <;> simp [hprev, hlt]
  | false =>
    by_cases hcap : ¬(s.routing_table.len < group_size ∧ joining_nodes_num s < group_size) ∧
        MAX_JOINING_NODES ≤ joining_nodes_num s
    · simp [hcap]
    · simp only [hcap, if_false, Bool.false_eq_true, reduceIte, iff_false]
      unfold client_identify_accept
      cases hprev : s.client_map.lookup public_id.sign_key <;> simp [hprev, hcap]

/-- Witness for C4 at a concrete input: a node with a full routing table
(zero entries is below `group_size`, so take `client_restriction = true`
with the empty table) denies the identify and only sends
`BootstrapDeny`. -/
theorem c4_witness :
    handle_client_identify witnessHash baseState 3
        { sign_key := 5, enc_key := 6, name := 6 }
        { signer := 5, signed := { sign_key := 5, enc_key := 6, name := 6 } } true =
      (.ok (), baseState, [Effect.send 3 OutDirectMessage.BootstrapDeny]) :=
  ((c4_client_identify_admission witnessHash baseState 3
      { sign_key := 5, enc_key := 6, name := 6 }
      { signer := 5, signed := { sign_key := 5, enc_key := 6, name := 6 } } true
      rfl rfl).2 (by simp [baseState, RoutingTableM.fresh, RoutingTableM.len, group_size])).1

/-- Recognises a `GetCloseGroup` response, the one message shape the
accumulation exception in `handle_routing_message` is keyed on. -/
def is_get_close_group_response : RoutingMessage → Bool
  | .Response { content := ResponseContent.GetCloseGroup _, .. } => true
  | _ => false

/-- C5: a group-sourced routing message that is not a `GetCloseGroup`
response is dispatched to the request/response handlers iff the quorum
accumulator emits it (and is absorbed, with only the accumulator state
advanced, otherwise); a group-sourced `GetCloseGroup` response — the only
exempt shape — is dispatched directly, with the whole state untouched. -/
theorem c5_get_close_group_response_not_accumulated (s : CoreState)
    (routing_msg : RoutingMessage) (public_id : PublicId)
    (hgrp : routing_msg.src.is_group = true)
    (hfilter : routing_msg ∉ s.grp_msg_filter) :
    (is_get_close_group_response routing_msg = true →
      handle_routing_message s routing_msg public_id = (.ok (some routing_msg), s))
  ∧ (is_get_close_group_response routing_msg = false →
      (((handle_routing_message s routing_msg public_id).1 = .ok (some routing_msg)) ↔
        (accumulate s routing_msg public_id).1 = some routing_msg)
      ∧ ((accumulate s routing_msg public_id).1 = none →
          handle_routing_message s routing_msg public_id =
            (.ok none, (accumulate s routing_msg public_id).2))) := by
  constructor
  · intro htrue
    rcases routing_msg with req | ⟨src, dst, content⟩
    · simp [is_get_close_group_response] at htrue
    · cases content
      case GetCloseGroup ids =>
        simp only [RoutingMessage.src] at hgrp
        simp [handle_routing_message, RoutingMessage.src, hgrp, hfilter]
      all_goals simp [is_get_close_group_response] at htrue
  · intro hfalse
    have hred : handle_routing_message s routing_msg public_id =
        (match accumulate s routing_msg public_id with
         | (some output_msg, s1) =>
           (.ok (some routing_msg),
            { s1 with grp_msg_filter := output_msg :: s1.grp_msg_filter })
         | (none, s1) => (.ok none, s1)) := by
      rcases routing_msg with req | ⟨src, dst, content⟩
      · simp only [RoutingMessage.src] at hgrp
        simp [handle_routing_message, RoutingMessage.src, hgrp, hfilter]
      · cases content
        case GetCloseGroup ids => simp [is_get_close_group_response] at hfalse
        all_goals simp only [RoutingMessage.src] at hgrp
        all_goals simp [handle_routing_message, RoutingMessage.src, hgrp, hfilter]
    rcases accumulate_cases s routing_msg public_id with ⟨s1, hacc⟩ | ⟨s1, hacc⟩ <;>
      rw [hacc] at hred <;>
      simp [hred, hacc]

/-- A concrete group-sourced `GetCloseGroup` response. -/
def c5Msg : RoutingMessage :=
  RoutingMessage.Response
    { src := Authority.NodeManager 1, dst := Authority.Client 10 12,
      content := ResponseContent.GetCloseGroup [] }

/-- Witness for C5 at a concrete input: a group-sourced `GetCloseGroup`
response is dispatched directly, leaving the state untouched. -/
theorem c5_witness :
    handle_routing_message baseState c5Msg baseSigned.public_id =
      (.ok (some c5Msg), baseState) :=
  (c5_get_close_group_response_not_accumulated baseState c5Msg baseSigned.public_id rfl
    (by simp [baseState])).1 rfl

/-- C6 (divergence witness): the assertion in `set_self_node_name` only
rules out renaming to the hash of our signing key — it does not stop a
second rename.  Starting from a state whose signing key hashes to `11`,
a first rename to `2` succeeds, and a second rename to the different name
`3` succeeds as well, although the claim (and the function's own comment)
says a second call with a different name must fail the precondition. -/
theorem c6_second_rename_succeeds :
    (∃ s1, set_self_node_name witnessHash baseState 2 = some s1 ∧
      ∃ s2, set_self_node_name witnessHash s1 3 = some s2) := by
  refine ⟨_, rfl, _, rfl⟩

/-- C6 (the parts of the claim the code does honour): the precondition
`new_name ≠ H(signing_pub)` is asserted — a call violating it fails — and
a successful call replaces the routing table with a fresh empty table
anchored at the new name and renames the public id. -/
theorem c6_set_self_node_name_effects (H : HashModel) (s : CoreState)
    (new_name : XorName) :
    (H.hPk s.full_id.public_id.sign_key = new_name →
      set_self_node_name H s new_name = none)
  ∧ (H.hPk s.full_id.public_id.sign_key ≠ new_name →
      set_self_node_name H s new_name =
        some { s with
          routing_table := RoutingTableM.fresh new_name
          full_id := { public_id := s.full_id.public_id.set_name new_name } }) := by
  constructor
  · intro h; simp [set_self_node_name, h]
  · intro h; simp [set_self_node_name, h]

/-- Witness for the effects half of C6 at a concrete input. -/
theorem c6_effects_witness :
    set_self_node_name witnessHash baseState 2 =
      some { baseState with
        routing_table := RoutingTableM.fresh 2
        full_id := { public_id := baseState.full_id.public_id.set_name 2 } } :=
  (c6_set_self_node_name_effects witnessHash baseState 2).2 (by decide)

/-- C7: a participant in `Disconnected` state that receives a transport
`OnAccept` becomes a `Node`, its name becomes the hash of the name it held
before the event, and its routing table is reset to a fresh empty table
anchored at that new name (under the success condition of the assertion
inside `set_self_node_name`, which holds for SHA-512 barring a hash
coincidence). -/
theorem c7_on_accept_first_node (H : HashModel) (s : CoreState)
    (endpoint : Endpoint) (connection : Connection)
    (hdis : s.state = State.Disconnected)
    (hassert : H.hPk s.full_id.public_id.sign_key ≠ H.hName s.full_id.public_id.name) :
    ∃ s1, handle_on_accept H s endpoint connection = some s1 ∧
      s1.state = State.Node ∧
      s1.full_id.public_id.name = H.hName s.full_id.public_id.name ∧
      s1.routing_table = RoutingTableM.fresh (H.hName s.full_id.public_id.name) ∧
      s1.routing_table.nodes = [] := by
  refine ⟨{ { s with
      routing_table := RoutingTableM.fresh (H.hName s.full_id.public_id.name)
      full_id := { public_id := s.full_id.public_id.set_name (H.hName s.full_id.public_id.name) } }
    with state := State.Node, acceptors := endpoint :: s.acceptors }, ?_, ?_⟩
  · unfold handle_on_accept
    rw [if_pos hdis]
    simp only [set_self_node_name, if_neg hassert]
  · simp [PublicId.set_name, RoutingTableM.fresh]

/-- Witness for C7 at a concrete input. -/
theorem c7_witness :
    ∃ s1,
      handle_on_accept witnessHash { baseState with state := State.Disconnected } 4 9 =
        some s1 ∧
      s1.state = State.Node ∧
      s1.full_id.public_id.name =
        witnessHash.hName
          { baseState with state := State.Disconnected }.full_id.public_id.name ∧
      s1.routing_table =
        RoutingTableM.fresh
          (witnessHash.hName
            { baseState with state := State.Disconnected }.full_id.public_id.name) ∧
      s1.routing_table.nodes = [] :=
  c7_on_accept_first_node witnessHash { baseState with state := State.Disconnected } 4 9
    rfl (by decide)

/-- C8: `handle_expect_close_node_request` caches the received id in
`node_id_cache` under its name, and a duplicate insertion for a name that
already has an entry is refused with `RejectedPublicId`. -/
theorem c8_expect_close_node_cache (s : CoreState) (expect_id : PublicId) :
    (s.node_id_cache.lookup expect_id.name = none →
      handle_expect_close_node_request s expect_id =
        (.ok (),
         { s with node_id_cache := map_insert expect_id.name expect_id s.node_id_cache }))
  ∧ ((handle_expect_close_node_request s expect_id).2.node_id_cache.lookup expect_id.name =
      some expect_id)
  ∧ (∀ prev, s.node_id_cache.lookup expect_id.name = some prev →
      (handle_expect_close_node_request s expect_id).1 = .error .RejectedPublicId) := by
  refine ⟨?_, ?_, ?_⟩
  · intro h
    simp [handle_expect_close_node_request, h]
  · unfold handle_expect_close_node_request
    cases h : s.node_id_cache.lookup expect_id.name <;>
      simp [h, map_insert, List.lookup]
  · intro prev h
    simp [handle_expect_close_node_request, h]

/-- Witness for C8 at a concrete input: a second `ExpectCloseNode` for a
name already cached is answered with `RejectedPublicId`. -/
theorem c8_witness :
    (handle_expect_close_node_request
        { baseState with node_id_cache := [(7, baseSigned.public_id)] }
        baseSigned.public_id).1 = .error .RejectedPublicId :=
  (c8_expect_close_node_cache
      { baseState with node_id_cache := [(7, baseSigned.public_id)] }
      baseSigned.public_id).2.2 baseSigned.public_id rfl

/-- C9: on the `RejectedPublicId` path of
`handle_expect_close_node_request` the cache entry for the name has
nonetheless been replaced with the newly received id — the insertion
happens before the error is returned, so the state is not left unchanged
(whenever the new id differs from the cached one). -/
theorem c9_duplicate_expect_replaces_cache_entry (s : CoreState)
    (expect_id prev : PublicId)
    (hprev : s.node_id_cache.lookup expect_id.name = some prev) :
    (handle_expect_close_node_request s expect_id).1 = .error .RejectedPublicId
  ∧ (handle_expect_close_node_request s expect_id).2.node_id_cache.lookup expect_id.name =
      some expect_id
  ∧ (prev ≠ expect_id →
      (handle_expect_close_node_request s expect_id).2.node_id_cache.lookup expect_id.name ≠
        s.node_id_cache.lookup expect_id.name) := by
  refine ⟨?_, ?_, ?_⟩
  · simp [handle_expect_close_node_request, hprev]
  · simp [handle_expect_close_node_request, hprev, map_insert, List.lookup]
  · intro hne
    simp only [handle_expect_close_node_request, hprev, map_insert]
    simp [List.lookup, hprev]
    exact fun h => hne h.symm

/-- A concrete state whose id cache holds an entry for name 7 that differs
from `baseSigned.public_id`. -/
def c9wState : CoreState :=
  { baseState with node_id_cache := [(7, { sign_key := 1, enc_key := 2, name := 7 })] }

/-- Witness for C9 at a concrete input: the refused duplicate has replaced
the cache entry, so the state observably changed. -/
theorem c9_witness :
    (handle_expect_close_node_request c9wState baseSigned.public_id).1 =
      .error .RejectedPublicId
    ∧ (handle_expect_close_node_request c9wState baseSigned.public_id).2.node_id_cache.lookup
        baseSigned.public_id.name ≠ c9wState.node_id_cache.lookup baseSigned.public_id.name := by
  have h := c9_duplicate_expect_replaces_cache_entry c9wState baseSigned.public_id
    { sign_key := 1, enc_key := 2, name := 7 } rfl
  exact ⟨h.1, h.2.2 (by decide)⟩

/-- C10: the result delivered on the caller's channel for a
`NodeSendMessage` or `ClientSendRequest` action is `Err` exactly for
`Interface` errors of the internal send outcome — any other internal
failure is reported as `Ok(())` — and a `ClientSendRequest` issued with an
empty `proxy_map` delivers `Err(NotConnected)`. -/
theorem c10_action_results_interface_only (s : CoreState)
    (send_outcome_node : Except RoutingError Unit)
    (send_outcome : RequestMessage → Except RoutingError Unit)
    (content : RequestContent) (dst : Authority) :
    (∀ e, node_send_message_action send_outcome_node = .error e ↔
      send_outcome_node = .error (.Interface e))
  ∧ (s.proxy_map = [] →
      client_send_request_action s send_outcome content dst = .error .NotConnected)
  ∧ (∀ connection pid rest, s.proxy_map = (connection, pid) :: rest →
      ∀ e, client_send_request_action s send_outcome content dst = .error e ↔
        send_outcome
          { src := Authority.Client s.full_id.public_id.sign_key pid.name,
            dst := dst, content := content } = .error (.Interface e)) := by
  refine ⟨?_, ?_, ?_⟩
  · intro e
    cases send_outcome_node with
    | ok u => simp [node_send_message_action]
    | error err => cases err <;> simp [node_send_message_action]
  · intro h
    simp [client_send_request_action, get_client_authority, h]
  · intro connection pid rest h e
    cases hout : send_outcome
        { src := Authority.Client s.full_id.public_id.sign_key pid.name,
          dst := dst, content := content } with
    | ok u => simp [client_send_request_action, get_client_authority, h, hout]
    | error err =>
      cases err <;> simp [client_send_request_action, get_client_authority, h, hout]

/-- Witness for C10 at a concrete input: with no proxy, a client send
request delivers `NotConnected`. -/
theorem c10_witness :
    client_send_request_action baseState (fun _ => .ok ()) RequestContent.GetCloseGroup
        (Authority.NodeManager 3) = .error .NotConnected :=
  (c10_action_results_interface_only baseState (.ok ()) (fun _ => .ok ())
      RequestContent.GetCloseGroup (Authority.NodeManager 3)).2.1 rfl

end Routing
